import Mathlib

/-!
Shallow embedding of the ComfyUI-Nuke-Bridge repository
(`src/python/launch_server.py` and `src/python/comfy_to_nuke.py`)
together with proofs about the embedded definitions.

Conventions used throughout:
- OS and host effects (file existence, `subprocess.Popen`, `poll()`,
  `terminate()`/`kill()` raising, thread handles, clock readings, Nuke node
  behaviour) are passed in explicitly as environment records or oracle
  functions; the embedded functions are otherwise literal translations of
  the Python control flow.
- A Python function that catches all of its exceptions is embedded as a
  total Lean function; a Python operation that may raise is embedded with
  `Except` or an explicit error flag.
- `time.time()` readings are the successive values of a `clock : Nat -> Int`
  oracle; index 0 is the reading used to compute `end_time`, index `k + 1`
  is the reading of the `while` condition before iteration `k`.
- Side effects that the claims talk about (prints, status writes, spawns,
  `setInput` attempts) are collected in explicit event lists.
-/

namespace CNBridge

/-- Status strings of `launch_server.py` (the module global `_last_status`).
Values: `idle`, `launching`, `already_running`, `running`, `error`, `stopped`. -/
inductive Status where
  | idle
  | launching
  | alreadyRunning
  | running
  | error
  | stopped
deriving DecidableEq

/-- The terminal status set of `wait_until_ready`:
`terminal = \x7b"running", "already_running", "error"\x7d`. -/
def Status.isTerminal : Status → Bool
  | .running => true
  | .alreadyRunning => true
  | .error => true
  | _ => false

/-! ## The readiness regex

`URL_WITH_PORT_REGEX = re.compile(r"(https?://(?:\[[^\]]+\]|[^/\s:]+):\d+)")`

We embed `URL_WITH_PORT_REGEX.search(line)` as a Boolean matcher on
`List Char`. `re.search` succeeds iff the pattern matches starting at some
position; since the pattern's character classes make the greedy repetitions
deterministic (a run of non-`]` characters can only be followed by the first
`]`, a run of non-`/`, non-whitespace, non-`:` characters can only be
followed by the first excluded character), the backtracking search is
equivalent to the direct scan below, with the two alternation branches
tried as a disjunction. `\d` is modelled as an ASCII digit and `\s` as the
ASCII whitespace class, which is faithful on the byte-oriented log lines
the launcher reads. -/

/-- The Python `\s` class (ASCII part): space, tab, newline, carriage
return, vertical tab, form feed. -/
def isPyWS (c : Char) : Bool :=
  c == ' ' || c == '\t' || c == '\n' || c == '\r' || c == '\x0b' || c == '\x0c'

/-- The branch `\[[^\]]+\]:\d+` of the host alternation: a bracketed
(e.g. IPv6) host literal followed by a colon and at least one digit. -/
def bracketHostPort (cs : List Char) : Bool :=
  match cs with
  | '[' :: rest =>
    let inner := rest.takeWhile (fun c => !(c == ']'))
    let rest2 := rest.dropWhile (fun c => !(c == ']'))
    match inner, rest2 with
    | [], _ => false
    | _ :: _, ']' :: ':' :: d :: _ => d.isDigit
    | _, _ => false
  | _ => false

/-- The branch `[^/\s:]+:\d+` of the host alternation: a non-empty host run
(excluding `/`, whitespace and `:`) followed by a colon and at least one
digit. -/
def plainHostPort (cs : List Char) : Bool :=
  let host := cs.takeWhile (fun c => !(c == '/' || c == ':' || isPyWS c))
  let rest := cs.dropWhile (fun c => !(c == '/' || c == ':' || isPyWS c))
  match host, rest with
  | [], _ => false
  | _ :: _, ':' :: d :: _ => d.isDigit
  | _, _ => false

/-- Does `https?://(?:\[[^\]]+\]|[^/\s:]+):\d+` match starting at the head
of the character list? The optional `s` and the host alternation are the
two backtracking choice points, taken as disjunctions. -/
def urlMatchAt : List Char → Bool
  | 'h' :: 't' :: 't' :: 'p' :: rest =>
    (match rest with
     | 's' :: ':' :: '/' :: '/' :: r => bracketHostPort r || plainHostPort r
     | _ => false)
    ||
    (match rest with
     | ':' :: '/' :: '/' :: r => bracketHostPort r || plainHostPort r
     | _ => false)
  | _ => false

/-- `URL_WITH_PORT_REGEX.search` on a character list: the pattern matches
starting at some position. -/
def urlSearchL (cs : List Char) : Bool :=
  cs.tails.any urlMatchAt

/-- `URL_WITH_PORT_REGEX.search` on a Python string. -/
def urlSearch (s : String) : Bool :=
  urlSearchL s.toList

/-- Python `str.rstrip()` (the `line = line.rstrip()` in `_reader_loop`):
drop trailing whitespace. -/
def pyRstrip (cs : List Char) : List Char :=
  ((cs.reverse).dropWhile isPyWS).reverse

/-! ## The reader loop (`_reader_loop`) -/

/-- Observable events of `_reader_loop`: a forwarded log line
(`nuke.tprint(f"[ComfyUI:name] line")`), the one-shot URL report
(`nuke.tprint(f"[ComfyUI] Server running at: url")`), and a status write
(`_set_status`). -/
inductive REvent where
  | printLine (line : List Char)
  | urlReport (line : List Char)
  | setStatus (st : Status)
deriving DecidableEq

/-- The `for line in iter(pipe.readline, "")` loop of `_reader_loop`,
with the local `url_reported` flag threaded through. Returns the emitted
events and the final value of `url_reported`. -/
def readerGo : List (List Char) → Bool → List REvent × Bool
  | [], reported => ([], reported)
  | l :: ls, reported =>
    let line := pyRstrip l
    if !reported && urlSearchL line then
      let r := readerGo ls true
      (REvent.printLine line :: REvent.urlReport line :: REvent.setStatus Status.running :: r.1, r.2)
    else
      let r := readerGo ls reported
      (REvent.printLine line :: r.1, r.2)

/-- `_reader_loop(pipe, name)` on the full sequence of lines the pipe
yields before closing, given the status current when the loop was entered
(`status0`; in the model the loop itself is the only writer, so the status
read after the loop is `running` iff the loop flipped it). After the pipe
closes, the loop sets `stopped` unless the current status is `error` or
`already_running`. Returns the event trace and the final status. -/
def readerLoop (lines : List (List Char)) (status0 : Status) : List REvent × Status :=
  let r := readerGo lines false
  let cur := if r.2 then Status.running else status0
  if cur == Status.error || cur == Status.alreadyRunning then (r.1, cur)
  else (r.1 ++ [REvent.setStatus Status.stopped], Status.stopped)

/-- Number of `_set_status("running")` events in a reader trace. -/
def countRunningSets (evs : List REvent) : Nat :=
  evs.countP fun e => e == REvent.setStatus Status.running

/-- Number of `Server running at:` URL reports in a reader trace. -/
def countUrlReports (evs : List REvent) : Nat :=
  evs.countP fun e =>
    match e with
    | REvent.urlReport _ => true
    | _ => false

/-! ## Process supervision (`launch_server.py`)

The module globals `_process`, `_reader_thread`, `_last_status` become an
explicit `ServerState`; OS behaviour becomes environment records. -/

/-- A `subprocess.Popen` handle (only its identity matters to the claims). -/
structure Proc where
  pid : Int
deriving DecidableEq

/-- The supervisor's mutable module state: `_process`, `_reader_thread`
(abstracted to a thread handle id), `_last_status`. -/
structure ServerState where
  process : Option Proc
  readerThread : Option Nat
  lastStatus : Status
deriving DecidableEq

/-- Observable events of `launch_comfyui_server` / `stop_comfyui_server`:
prints, status writes (`_set_status`), a successful `subprocess.Popen`
(`spawned`), starting the reader thread, and `terminate()` / `kill()`
calls on the child. -/
inductive LEvent where
  | tprint (msg : String)
  | statusSet (st : Status)
  | spawned (p : Proc)
  | readerStarted (tid : Nat)
  | terminateCalled (pid : Int)
  | killCalled (pid : Int)
deriving DecidableEq

/-- Number of successful `subprocess.Popen` spawns in an event trace. -/
def spawnedCount (evs : List LEvent) : Nat :=
  evs.countP fun e =>
    match e with
    | LEvent.spawned _ => true
    | _ => false

/-- `Except.isOk` written out (used to state failure hypotheses). -/
def exceptIsOk {e a : Type} : Except e a → Bool
  | .ok _ => true
  | .error _ => false

/-- Configuration and filesystem facts consulted by `_build_command`:
`COMFYUI_DIR`, `COMFYUI_PYTHON`, `COMFYUI_IP`, `COMFYUI_PORT`,
`COMFYUI_FLAGS` (already split by `shlex.split`), and whether
`COMFYUI_DIR/main.py` resp. `COMFYUI_DIR/server.py` exist on disk. -/
structure BuildEnv where
  comfyDir : String
  python : String
  ip : String
  port : Int
  flags : List String
  mainExists : Bool
  serverExists : Bool

/-- `_build_command()`: pick `main.py` if it exists, else `server.py`;
raise (`Except.error`) if the chosen entry script does not exist; else
return `[python, "-u", entry, "--listen", ip, "--port", str(port)] + flags`.
(`os.path.join` is modelled with a `/` separator.) -/
def buildCommand (e : BuildEnv) : Except String (List String) :=
  let entry :=
    if e.mainExists then e.comfyDir ++ ("/main.py") else e.comfyDir ++ ("/server.py")
  let entryExists := if e.mainExists then true else e.serverExists
  if entryExists then
    Except.ok ([e.python, "-u", entry, "--listen", e.ip, "--port", toString e.port] ++ e.flags)
  else
    Except.error ("ComfyUI entry script not found")

/-- OS behaviour consulted by one call to `launch_comfyui_server`:
whether the existing `_process` (if any) polls as alive
(`poll() is None`), the `_build_command` configuration, the outcome of
`subprocess.Popen` (a handle, or a raised exception message — covering
both the `FileNotFoundError` and the generic `except` arm), the handle of
the reader thread that would be started, and the `poll()` result after the
0.2 s grace sleep (`some code` = exited immediately). -/
structure LaunchEnv where
  pollAliveExisting : Bool
  buildEnv : BuildEnv
  spawnResult : Except String Proc
  newThreadId : Nat
  earlyExitCode : Option Int

/-- `launch_comfyui_server()`. All exception paths of the Python function
are caught inside it, so the embedding is a total function: it returns the
new module state and the emitted events, never an error. -/
def launch (env : LaunchEnv) (s : ServerState) : ServerState × List LEvent :=
  if s.process.isSome && env.pollAliveExisting then
    ({ s with lastStatus := Status.alreadyRunning },
     [LEvent.tprint ("[ComfyUI] Server already running."),
      LEvent.statusSet Status.alreadyRunning])
  else
    match buildCommand env.buildEnv with
    | Except.error e =>
      ({ s with lastStatus := Status.error },
       [LEvent.tprint ("[ComfyUI] Failed to build command: " ++ e),
        LEvent.statusSet Status.error])
    | Except.ok _ =>
      let pre : List LEvent :=
        [LEvent.tprint ("[ComfyUI] Using Python: " ++ env.buildEnv.python),
         LEvent.tprint ("[ComfyUI] Launching: ..."),
         LEvent.statusSet Status.launching]
      match env.spawnResult with
      | Except.error e =>
        ({ s with lastStatus := Status.error },
         pre ++ [LEvent.tprint ("[ComfyUI] Failed to launch: " ++ e),
                 LEvent.statusSet Status.error])
      | Except.ok p =>
        let s1 : ServerState :=
          { s with process := some p, readerThread := some env.newThreadId,
                   lastStatus := Status.launching }
        let evs := pre ++ [LEvent.spawned p, LEvent.readerStarted env.newThreadId]
        match env.earlyExitCode with
        | some _ =>
          ({ s1 with process := Option.none, lastStatus := Status.error },
           evs ++ [LEvent.tprint ("[ComfyUI] Server exited immediately"),
                   LEvent.statusSet Status.error])
        | Option.none =>
          (s1, evs ++ [LEvent.tprint ("[ComfyUI] Server process started")])

/-- OS behaviour consulted by one call to `stop_comfyui_server`: the entry
`poll()` result (`true` = already exited), whether `terminate()` raises,
whether the poll loop observes the exit before the timeout, and whether
`kill()` raises. -/
structure StopEnv where
  entryPollExited : Bool
  terminateRaises : Bool
  gracefulExitObserved : Bool
  killRaises : Bool
deriving DecidableEq

/-- The `try` block of `stop_comfyui_server` on a live process: print,
`terminate()`, poll up to the timeout, `kill()` if still alive. Returns
the events emitted before returning or raising, and `some msg` if the
block raised (caught by the `except` arm). -/
def stopTryBody (env : StopEnv) (p : Proc) : List LEvent × Option String :=
  if env.terminateRaises then
    ([LEvent.tprint ("[ComfyUI] Stopping server ...")], some ("terminate raised"))
  else if env.gracefulExitObserved then
    ([LEvent.tprint ("[ComfyUI] Stopping server ..."), LEvent.terminateCalled p.pid],
     Option.none)
  else if env.killRaises then
    ([LEvent.tprint ("[ComfyUI] Stopping server ..."), LEvent.terminateCalled p.pid,
      LEvent.tprint ("[ComfyUI] Force-killing server ...")], some ("kill raised"))
  else
    ([LEvent.tprint ("[ComfyUI] Stopping server ..."), LEvent.terminateCalled p.pid,
      LEvent.tprint ("[ComfyUI] Force-killing server ..."), LEvent.killCalled p.pid],
     Option.none)

/-- `stop_comfyui_server(timeout)`. The `finally` clause (`_process = None;
_set_status("stopped")`) runs on every path, including when the `try`
block raised and the `except` arm printed; the embedding is total. -/
def stop (env : StopEnv) (s : ServerState) : ServerState × List LEvent :=
  match s.process with
  | Option.none =>
    ({ s with process := Option.none, lastStatus := Status.stopped },
     [LEvent.statusSet Status.stopped])
  | some p =>
    if env.entryPollExited then
      ({ s with process := Option.none, lastStatus := Status.stopped },
       [LEvent.statusSet Status.stopped])
    else
      let body := stopTryBody env p
      let handled :=
        body.1 ++
          (match body.2 with
           | some e => [LEvent.tprint ("[ComfyUI] Error while stopping server: " ++ e)]
           | Option.none => [])
      ({ s with process := Option.none, lastStatus := Status.stopped },
       handled ++ [LEvent.statusSet Status.stopped])

/-! ## `wait_until_ready` -/

/-- Result of `wait_until_ready`: either `return`ing a status string, or
raising `UnboundLocalError` at the final `return status` because the
`while` body never executed and the local `status` was never assigned. -/
inductive WaitResult where
  | ok (s : Status)
  | unboundLocalError
deriving DecidableEq

/-- `true` iff the call returned a status string (did not raise). -/
def WaitResult.returnsStatus : WaitResult → Bool
  | .ok _ => true
  | .unboundLocalError => false

/-- The `while time.time() < end_time` loop of `wait_until_ready`.
`clock (k + 1)` is the `time.time()` reading of the condition before
iteration `k` and `clock 0 + timeout` is `end_time`; `statusAt k` is the
`_last_status` snapshot read in iteration `k`; `procDeadAt k` is
`_process and _process.poll() is not None` in iteration `k`; `last` is the
current value of the local `status` (`Option.none` = not yet assigned).
The returned `Bool` records whether `_set_status("error")` was called.
`fuel` bounds the modelled iterations; `Option.none` means the bound was
too small (a modelling artifact, never reachable under a strictly
advancing clock with `fuel` larger than the remaining time). -/
def waitGo (timeout : Int) (clock : Nat → Int) (statusAt : Nat → Status)
    (procDeadAt : Nat → Bool) : Nat → Nat → Option Status → Option (WaitResult × Bool)
  | 0, _, _ => Option.none
  | fuel + 1, k, last =>
    if clock (k + 1) < clock 0 + timeout then
      let s := statusAt k
      if s.isTerminal then some (WaitResult.ok s, false)
      else if procDeadAt k then some (WaitResult.ok Status.error, true)
      else waitGo timeout clock statusAt procDeadAt fuel (k + 1) (some s)
    else
      match last with
      | some s => some (WaitResult.ok s, false)
      | Option.none => some (WaitResult.unboundLocalError, false)

/-- `wait_until_ready(timeout)` under the given clock/status/liveness
oracles. -/
def waitUntilReady (timeout : Int) (clock : Nat → Int) (statusAt : Nat → Status)
    (procDeadAt : Nat → Bool) (fuel : Nat) : Option (WaitResult × Bool) :=
  waitGo timeout clock statusAt procDeadAt fuel 0 Option.none

/-! ## The workflow importer's link phase (`comfy_to_nuke._connect_nodes`)

JSON scalars become `PyVal`; Python truthiness, the falsy `or` chains, the
`isinstance` checks (a Python `bool` is an `int`), `int()` coercion (floats
truncate toward zero), and `dict.get` (absent key = `None`) are embedded
explicitly. -/

/-- A Python/JSON scalar as handled by `_connect_nodes`. -/
inductive PyVal where
  | none
  | pybool (b : Bool)
  | int (n : Int)
  | float (q : Rat)
  | str (s : String)
deriving DecidableEq

/-- Python truthiness (`bool(x)`): `None`, `False`, `0`, `0.0` and `""`
are falsy. -/
def PyVal.truthy : PyVal → Bool
  | .none => false
  | .pybool b => b
  | .int n => !(n == 0)
  | .float q => !(q == 0)
  | .str s => !(s == "")

/-- Python `a or b`: `a` if truthy, else `b`. -/
def pyOr (a b : PyVal) : PyVal :=
  if a.truthy then a else b

/-- `isinstance(x, int)` — Python `bool` is a subclass of `int`. -/
def PyVal.isIntInst : PyVal → Bool
  | .int _ => true
  | .pybool _ => true
  | _ => false

/-- `isinstance(x, (int, float))`. -/
def PyVal.isNumInst : PyVal → Bool
  | .int _ => true
  | .pybool _ => true
  | .float _ => true
  | _ => false

/-- Python `int()` on a rational float value: truncation toward zero. -/
def ratTowardZero (q : Rat) : Int :=
  if 0 ≤ q then q.floor else -((-q).floor)

/-- Python `int(x)` on the numeric values accepted by the
`isinstance(dst_slot, (int, float))` guard. -/
def PyVal.toInt : PyVal → Int
  | .int n => n
  | .pybool b => if b then 1 else 0
  | .float q => ratTowardZero q
  | _ => 0

/-- The dictionary-key identity of an int-like value (`True` hashes and
compares as `1`), used for `by_id.get(...)`. -/
def PyVal.asKey : PyVal → Int
  | .int n => n
  | .pybool b => if b then 1 else 0
  | _ => 0

/-- A created Nuke node as `_connect_nodes` observes it:
`dst.maxInputs()` (which may raise) and whether
`dst.setInput(slot, src)` raises at a given slot. -/
structure NukeNode where
  maxInputsResult : Except Unit Int
  setInputRaises : Int → Bool

/-- `kvs.get(k)` on an association-list dictionary: `None` when absent. -/
def dictGet (kvs : List (String × PyVal)) (k : String) : PyVal :=
  match kvs.find? (fun kv => kv.1 == k) with
  | some kv => kv.2
  | Option.none => PyVal.none

/-- `by_id.get(k)` on the `created` map of the import pass. -/
def dictGetNode (byId : List (Int × NukeNode)) (k : Int) : Option NukeNode :=
  (byId.find? (fun kv => kv.1 == k)).map (fun kv => kv.2)

/-- One entry of the `links` list: a LiteGraph positional sequence, a
keyed dictionary, or anything else (skipped). -/
inductive LinkEntry where
  | arr (xs : List PyVal)
  | dict (kvs : List (String × PyVal))
  | other (v : PyVal)
deriving DecidableEq

/-- Extraction of `(src_id, dst_id, dst_slot)` from one link entry:
`_, src_id, src_slot, dst_id, dst_slot, *rest = link` for sequences of
length at least 5 (shorter sequences fall to the `else: continue` arm),
the falsy-`or` key chains for dictionaries
(`from`/`src`/`output`, `to`/`dst`/`input`, `to_slot`/`dst_slot` else `0`),
and `Option.none` for anything else. `src_slot` is extracted by the
source but never used afterwards, so it is not returned here. -/
def linkFields : LinkEntry → Option (PyVal × PyVal × PyVal)
  | .arr (_ :: sid :: _ :: did :: dslot :: _) => some (sid, did, dslot)
  | .arr _ => Option.none
  | .dict kvs =>
    some (pyOr (dictGet kvs ("from")) (pyOr (dictGet kvs ("src")) (dictGet kvs ("output"))),
          pyOr (dictGet kvs ("to")) (pyOr (dictGet kvs ("dst")) (dictGet kvs ("input"))),
          pyOr (dictGet kvs ("to_slot")) (pyOr (dictGet kvs ("dst_slot")) (PyVal.int 0)))
  | .other _ => Option.none

/-- `max_inputs = max(1, int(dst.maxInputs()))`, with the `except` arm
setting `max_inputs = 1` when `maxInputs()` raises. -/
def effMaxInputs (n : NukeNode) : Int :=
  match n.maxInputsResult with
  | Except.ok m => max 1 m
  | Except.error _ => 1

/-- `slot = int(dst_slot) if isinstance(dst_slot, (int, float)) else 0`
followed by `if slot < 0 or slot >= max_inputs: slot = 0`. -/
def clampSlot (maxInputs : Int) (dslot : PyVal) : Int :=
  let slot0 := if dslot.isNumInst then dslot.toInt else 0
  if slot0 < 0 ∨ maxInputs ≤ slot0 then 0 else slot0

/-- Observable events of the connect phase: a `dst.setInput(slot, src)`
attempt, and a successful connection (the attempt did not raise, so
`connections += 1` ran). -/
inductive CEvent where
  | setInputAttempt (dstId : Int) (slot : Int) (srcId : Int)
  | connected (dstId : Int) (slot : Int) (srcId : Int)
deriving DecidableEq

/-- The body of the `for link in links` loop of `_connect_nodes` for one
link: returns the number of connections added (0 or 1) and the events.
Mirrors the source order: extract ids, `isinstance` check both ids,
resolve both endpoints in `by_id` (a missing endpoint, which `dict.get`
returns as `None`, is falsy and skipped), compute `max_inputs` and the
clamped slot, then attempt `setInput` under the (always-true)
`max_inputs > 0` guard, counting the link unless `setInput` raises. -/
def connectLink (byId : List (Int × NukeNode)) (link : LinkEntry) : Nat × List CEvent :=
  match linkFields link with
  | Option.none => (0, [])
  | some (sid, did, dslot) =>
    if sid.isIntInst && did.isIntInst then
      match dictGetNode byId sid.asKey, dictGetNode byId did.asKey with
      | some _, some dst =>
        let mi := effMaxInputs dst
        let slot := clampSlot mi dslot
        if 0 < mi then
          if dst.setInputRaises slot then
            (0, [CEvent.setInputAttempt did.asKey slot sid.asKey])
          else
            (1, [CEvent.setInputAttempt did.asKey slot sid.asKey,
                 CEvent.connected did.asKey slot sid.asKey])
        else (0, [])
      | _, _ => (0, [])
    else (0, [])

/-- `_connect_nodes(links, by_id)`: fold the per-link body over the link
list, summing the connection count and concatenating the events. -/
def connectNodes (links : List LinkEntry) (byId : List (Int × NukeNode)) :
    Nat × List CEvent :=
  links.foldl (fun acc l => ((acc.1 + (connectLink byId l).1,
    acc.2 ++ (connectLink byId l).2))) (0, [])

/-! ## Concrete instances used to evaluate the theorems -/

/-- A strictly advancing clock: reading `n` is `n` time units. -/
def wClock : Nat → Int := fun n => (n : Int)

/-- A status oracle that always observes `launching` (not terminal). -/
def wStatLaunching : Nat → Status := fun _ => Status.launching

/-- A liveness oracle: the child never appears dead. -/
def wDeadFalse : Nat → Bool := fun _ => false

/-- A liveness oracle: the child is dead from the first poll. -/
def wDeadTrue : Nat → Bool := fun _ => true

/-- A configuration whose ComfyUI directory has neither `main.py` nor
`server.py`, so `_build_command` raises. -/
def beMissing : BuildEnv :=
  ⟨"C:/ComfyUI", "python", "127.0.0.1", 8188, ["--log-stdout"], false, false⟩

/-- A configuration whose entry script exists. -/
def beOk : BuildEnv :=
  ⟨"C:/ComfyUI", "python", "127.0.0.1", 8188, ["--log-stdout"], true, true⟩

/-- A launch environment whose existing process polls as alive. -/
def envAlive : LaunchEnv := ⟨true, beOk, Except.ok ⟨9⟩, 7, Option.none⟩

/-- A supervisor state holding a live process and a reader thread. -/
def stWithProc : ServerState := ⟨some ⟨42⟩, some 3, Status.running⟩

/-- A launch environment with no live process and a failing
`_build_command`. -/
def envBuildFail : LaunchEnv := ⟨false, beMissing, Except.ok ⟨1⟩, 7, Option.none⟩

/-- The initial supervisor state: no process, no reader thread, `idle`. -/
def stIdle : ServerState := ⟨Option.none, Option.none, Status.idle⟩

/-- A Nuke node whose `maxInputs()` returns `m` and whose `setInput`
never raises (the behaviour of real Nuke nodes, whose `setInput` returns
`False` instead of raising when it cannot connect). -/
def nodeNoRaise (m : Int) : NukeNode := ⟨Except.ok m, fun _ => false⟩

/-- An import pass that created node 1 (a source) and node 2 whose
`maxInputs()` returns 0 (e.g. a `Read`). -/
def byIdZeroInput : List (Int × NukeNode) := [(1, nodeNoRaise 3), (2, nodeNoRaise 0)]

/-- An import pass that created nodes 1 and 2, node 2 accepting 3 inputs. -/
def byIdThree : List (Int × NukeNode) := [(1, nodeNoRaise 3), (2, nodeNoRaise 3)]

/-- A dict-form link whose source id field is the integer 0. -/
def kvsFromZero : List (String × PyVal) := [("from", PyVal.int 0), ("to", PyVal.int 3)]

/-- An import pass in which a node with id 0 (and one with id 3) exists. -/
def byIdWithZero : List (Int × NukeNode) := [(0, nodeNoRaise 3), (3, nodeNoRaise 3)]

/-! # Theorems -/

/-! ## Reader-loop helper lemmas -/

theorem readerGo_true_no_running (ls : List (List Char)) :
    countRunningSets (readerGo ls true).1 = 0 ∧ countUrlReports (readerGo ls true).1 = 0 := by
  induction ls with
  | nil => simp [readerGo, countRunningSets, countUrlReports]
  | cons l ls ih =>
    simp only [readerGo, Bool.not_true, Bool.false_and, if_neg, Bool.false_eq_true,
      not_false_iff]
    constructor
    · simpa [countRunningSets, List.countP_cons] using ih.1
    · simpa [countUrlReports, List.countP_cons] using ih.2

theorem readerGo_at_most_one (ls : List (List Char)) (b : Bool) :
    countRunningSets (readerGo ls b).1 ≤ 1 ∧ countUrlReports (readerGo ls b).1 ≤ 1 := by
  induction ls generalizing b with
  | nil => simp [readerGo, countRunningSets, countUrlReports]
  | cons l ls ih =>
    cases b with
    | true =>
      refine ⟨?_, ?_⟩
      · exact le_trans (le_of_eq (readerGo_true_no_running (l :: ls)).1) (by omega)
      · exact le_trans (le_of_eq (readerGo_true_no_running (l :: ls)).2) (by omega)
    | false =>
      by_cases h : urlSearchL (pyRstrip l) = true
      · constructor
        · simp only [readerGo, Bool.not_false, Bool.true_and, h, if_pos]
          have h0 := (readerGo_true_no_running ls).1
          simp only [countRunningSets, List.countP_cons] at h0 ⊢
          simp_all
        · simp only [readerGo, Bool.not_false, Bool.true_and, h, if_pos]
          have h0 := (readerGo_true_no_running ls).2
          simp only [countUrlReports, List.countP_cons] at h0 ⊢
          simp_all
      · constructor
        · simp only [readerGo, Bool.not_false, Bool.true_and, h, if_neg]
          have h0 := (ih false).1
          simp only [countRunningSets, List.countP_cons] at h0 ⊢
          simp_all
        · simp only [readerGo, Bool.not_false, Bool.true_and, h, if_neg]
          have h0 := (ih false).2
          simp only [countUrlReports, List.countP_cons] at h0 ⊢
          simp_all

/-! ## Claim theorems -/

/-- C1: a call to `launch_comfyui_server` while the supervised process
handle exists and the process polls as alive sets the status to
`already_running`, spawns no second subprocess, and leaves the process
handle and reader thread unchanged. -/
theorem launch_already_running_idempotent (env : LaunchEnv) (s : ServerState) (p : Proc)
    (hp : s.process = some p) (halive : env.pollAliveExisting = true) :
    (launch env s).1.lastStatus = Status.alreadyRunning ∧
    (launch env s).1.process = s.process ∧
    (launch env s).1.readerThread = s.readerThread ∧
    spawnedCount (launch env s).2 = 0 := by
  have h1 : s.process.isSome = true := by rw [hp]; rfl
  simp [launch, h1, halive, spawnedCount]

/-- Witness for C1: a concrete live-process state and alive-polling
environment satisfy the hypotheses, and the conclusion evaluates. -/
theorem launch_already_running_idempotent_witness :
    (launch envAlive stWithProc).1.lastStatus = Status.alreadyRunning ∧
    (launch envAlive stWithProc).1.process = stWithProc.process ∧
    (launch envAlive stWithProc).1.readerThread = stWithProc.readerThread ∧
    spawnedCount (launch envAlive stWithProc).2 = 0 :=
  launch_already_running_idempotent envAlive stWithProc ⟨42⟩ rfl rfl

/-- C2: every call to `stop_comfyui_server` — with no process ever
launched, with a process that already exited, called twice in a row, or
with `terminate`/`kill` raising — returns (the embedding is total), ends
with status `stopped`, and clears the process handle to `None`; the
universally quantified `StopEnv` covers every exception pattern of the
`try` block. -/
theorem stop_always_stopped_and_cleared (env : StopEnv) (s : ServerState) :
    (stop env s).1.process = Option.none ∧ (stop env s).1.lastStatus = Status.stopped := by
  cases hp : s.process with
  | none => simp [stop, hp]
  | some p =>
    by_cases he : env.entryPollExited = true
    · simp [stop, hp, he]
    · simp [stop, hp, he]

/-- C3: within one invocation of `_reader_loop`, at most one log line
flips the status to `running` and at most one URL report is printed:
after the first regex match sets `url_reported`, no later matching line
re-triggers the transition or re-reports the URL. -/
theorem reader_running_at_most_once (lines : List (List Char)) (status0 : Status) :
    countRunningSets (readerLoop lines status0).1 ≤ 1 ∧
    countUrlReports (readerLoop lines status0).1 ≤ 1 := by
  have h := readerGo_at_most_one lines false
  have happ1 : countRunningSets ((readerGo lines false).1 ++ [REvent.setStatus Status.stopped]) =
      countRunningSets (readerGo lines false).1 := by
    simp [countRunningSets, List.countP_append, List.countP_cons]
  have happ2 : countUrlReports ((readerGo lines false).1 ++ [REvent.setStatus Status.stopped]) =
      countUrlReports (readerGo lines false).1 := by
    simp [countUrlReports, List.countP_append, List.countP_cons]
  unfold readerLoop
  dsimp only
  split
  · have hrun : (Status.running == Status.error || Status.running == Status.alreadyRunning) = false := rfl
    rw [hrun]
    simp only [Bool.false_eq_true, if_false]
    exact ⟨le_trans (le_of_eq happ1) h.1, le_trans (le_of_eq happ2) h.2⟩
  · split
    · exact h
    · exact ⟨le_trans (le_of_eq happ1) h.1, le_trans (le_of_eq happ2) h.2⟩

/-- C6: `URL_WITH_PORT_REGEX` matches `http://127.0.0.1:8188`,
`https://localhost:443` and `http://[::1]:8188`, and does not match the
bare `127.0.0.1:8188` lacking a scheme. -/
theorem url_regex_examples :
    urlSearch ("http://127.0.0.1:8188") = true ∧
    urlSearch ("https://localhost:443") = true ∧
    urlSearch ("http://[::1]:8188") = true ∧
    urlSearch ("127.0.0.1:8188") = false :=
  ⟨by decide, by decide, by decide, by decide⟩

/-- C7: for every failure inside `launch_comfyui_server` — command
construction raising (entry script absent) or `subprocess.Popen` raising
(interpreter not found, OS error) — the function returns normally (the
embedding is a total function precisely because every Python exception
path is caught) with status `error`, and no subprocess is spawned. -/
theorem launch_failure_sets_error (env : LaunchEnv) (s : ServerState)
    (hnr : (s.process.isSome && env.pollAliveExisting) = false)
    (hfail : exceptIsOk (buildCommand env.buildEnv) = false ∨
      exceptIsOk env.spawnResult = false) :
    (launch env s).1.lastStatus = Status.error ∧ spawnedCount (launch env s).2 = 0 := by
  unfold launch
  rw [hnr]
  simp only [Bool.false_eq_true, if_false]
  cases hb : buildCommand env.buildEnv with
  | error e => simp [spawnedCount]
  | ok cmd =>
    cases hs : env.spawnResult with
    | error e => simp [spawnedCount]
    | ok p =>
      exfalso
      rcases hfail with h | h
      · rw [hb] at h; simp [exceptIsOk] at h
      · rw [hs] at h; simp [exceptIsOk] at h

/-- Witness for C7: with no live process and a ComfyUI directory missing
both entry scripts, `_build_command` fails and launch ends in `error`
with nothing spawned. -/
theorem launch_failure_sets_error_witness :
    (launch envBuildFail stIdle).1.lastStatus = Status.error ∧
    spawnedCount (launch envBuildFail stIdle).2 = 0 :=
  launch_failure_sets_error envBuildFail stIdle rfl (Or.inl rfl)

/-- Helper for C4: whenever the wait loop terminates with the local
`status` already assigned (or with the first loop check about to pass),
the call returns `WaitResult.ok s` for a status `s` that is terminal or
was observed by some status read. -/
theorem waitGo_ok_characterize (t : Int) (c : Nat → Int) (st : Nat → Status)
    (pd : Nat → Bool) :
    ∀ (fuel k : Nat) (last : Option Status) (r : WaitResult) (b : Bool),
      waitGo t c st pd fuel k last = some (r, b) →
      (∀ s0, last = some s0 → ∃ j, s0 = st j) →
      (last = Option.none → c (k + 1) < c 0 + t) →
      ∃ s, r = WaitResult.ok s ∧ (s.isTerminal = true ∨ ∃ j, s = st j) := by
  intro fuel
  induction fuel with
  | zero =>
    intro k last r b h _ _
    simp [waitGo] at h
  | succ n ih =>
    intro k last r b h hlast hnone
    simp only [waitGo] at h
    by_cases hc : c (k + 1) < c 0 + t
    · rw [if_pos hc] at h
      by_cases ht : (st k).isTerminal = true
      · rw [if_pos ht] at h
        obtain ⟨hr, _⟩ := Prod.mk.injEq .. ▸ Option.some.injEq .. ▸ h
        exact ⟨st k, by simp_all, Or.inl ht⟩
      · rw [if_neg ht] at h
        by_cases hd : pd k = true
        · rw [if_pos hd] at h
          refine ⟨Status.error, ?_, Or.inl rfl⟩
          have := Option.some.inj h
          exact (Prod.mk.injEq .. ▸ this).1.symm ▸ rfl
        · rw [if_neg hd] at h
          exact ih (k + 1) (some (st k)) r b h
            (fun s0 hs0 => ⟨k, (Option.some.inj hs0).symm⟩)
            (fun hco => by cases hco)
    · rw [if_neg hc] at h
      cases hl : last with
      | some s0 =>
        rw [hl] at h
        have := Option.some.inj h
        refine ⟨s0, ?_, Or.inr (hlast s0 hl)⟩
        exact (Prod.mk.injEq .. ▸ this).1.symm ▸ rfl
      | none =>
        exact absurd (hnone hl) hc

/-- C4 counterexample: called with `timeout = 0` (under any advancing
clock — here `clock n = n`), the `while` body of `wait_until_ready` never
executes, so the final `return status` reads the never-assigned local
`status` and the call raises `UnboundLocalError` instead of returning a
status string. -/
theorem wait_zero_timeout_unbound_local :
    waitUntilReady 0 wClock wStatLaunching wDeadFalse 3 =
      some (WaitResult.unboundLocalError, false) := by decide

/-- C4 (amended): for every call of `wait_until_ready` in which at least
one poll iteration runs (the second clock reading is still before
`end_time`, as happens for every practical positive timeout), the call
returns a status string without raising — a terminal status if one is
reached before the deadline, otherwise the last observed status. -/
theorem wait_returns_status_after_one_iteration (t : Int) (c : Nat → Int)
    (st : Nat → Status) (pd : Nat → Bool) (fuel : Nat) (r : WaitResult) (b : Bool)
    (hiter : c 1 < c 0 + t)
    (hret : waitUntilReady t c st pd fuel = some (r, b)) :
    ∃ s, r = WaitResult.ok s ∧ (s.isTerminal = true ∨ ∃ j, s = st j) :=
  waitGo_ok_characterize t c st pd fuel 0 Option.none r b hret
    (fun s0 h0 => by cases h0) (fun _ => hiter)

/-- Witness for C4 (amended): with `timeout = 5`, clock `n`, a constantly
`launching` status and a live child, the call times out and returns the
last observed status `launching` — a status string, not an exception. -/
theorem wait_returns_status_after_one_iteration_witness :
    ∃ s, WaitResult.ok Status.launching = WaitResult.ok s ∧
      (s.isTerminal = true ∨ ∃ j, s = wStatLaunching j) :=
  wait_returns_status_after_one_iteration 5 wClock wStatLaunching wDeadFalse 10
    (WaitResult.ok Status.launching) false (by decide) (by decide)

/-- C5: if the child process polls as exited in the first loop iteration
while the observed status is not yet terminal, `wait_until_ready` sets
the status to `error` (the `Bool` component) and returns `"error"` right
there, independently of how much of the timeout remains and of any later
clock, status or liveness values. -/
theorem wait_error_on_early_exit (t : Int) (c : Nat → Int) (st : Nat → Status)
    (pd : Nat → Bool) (fuel : Nat)
    (hiter : c 1 < c 0 + t)
    (hterm : (st 0).isTerminal = false)
    (hdead : pd 0 = true)
    (hfuel : 1 ≤ fuel) :
    waitUntilReady t c st pd fuel = some (WaitResult.ok Status.error, true) := by
  obtain ⟨n, rfl⟩ : ∃ n, fuel = n + 1 := ⟨fuel - 1, by omega⟩
  unfold waitUntilReady
  simp only [waitGo]
  rw [if_pos hiter]
  rw [hterm]
  simp [hdead]

/-- Witness for C5: a huge timeout (1000 time units) with a dead child
and non-terminal status returns `error` on the very first iteration
(fuel 1), without waiting out the rest of the timeout. -/
theorem wait_error_on_early_exit_witness :
    waitUntilReady 1000 wClock wStatLaunching wDeadTrue 1 =
      some (WaitResult.ok Status.error, true) :=
  wait_error_on_early_exit 1000 wClock wStatLaunching wDeadTrue 1
    (by decide) (by decide) rfl (by decide)

/-- C8: evaluation at the failing input. A link `[7, 1, 0, 2, 0]` whose
destination node 2 has `maxInputs() == 0` is not skipped:
`max_inputs = max(1, 0) = 1` defeats the `if max_inputs > 0` guard, so
`dst.setInput(0, src)` is attempted and, since Nuke's `setInput` does not
raise, the link is counted — `_connect_nodes` returns 1, where the claim
(and the source's own comment above the guard) require the link to be
skipped without an attempt and the count to be 0. -/
theorem connect_zero_input_attempted_and_counted :
    connectNodes
        [LinkEntry.arr [PyVal.int 7, PyVal.int 1, PyVal.int 0, PyVal.int 2, PyVal.int 0]]
        byIdZeroInput =
      (1, [CEvent.setInputAttempt 2 0 1, CEvent.connected 2 0 1]) := by
  decide

/-- Helper for C9: invalid slot values collapse to 0 under the source's
clamping. With `max_inputs = max(1, m)`, a non-numeric `dst_slot`, a
negative one, or one at least the destination's input count `m` always
yields slot 0. -/
theorem clampSlot_bad (m : Int) (v : PyVal)
    (h : ¬ v.isNumInst = true ∨ v.toInt < 0 ∨ m ≤ v.toInt) :
    clampSlot (max 1 m) v = 0 := by
  unfold clampSlot
  by_cases hn : v.isNumInst = true
  · simp only [hn, if_true]
    rcases h with h | h | h
    · exact absurd hn h
    · rw [if_pos (Or.inl h)]
    · by_cases h1 : v.toInt < 0
      · rw [if_pos (Or.inl h1)]
      · rcases lt_or_le v.toInt 1 with h2 | h2
        · have hz : v.toInt = 0 := by omega
          rw [hz]
          exact ite_self 0
        · exact if_pos (Or.inr (max_le h2 h))
  · simp only [hn, if_false, Bool.false_eq_true]
    exact ite_self 0

/-- Helper for C9: a numeric in-range slot (`0 ≤ slot < m`) is kept. -/
theorem clampSlot_good (m : Int) (v : PyVal)
    (h1 : v.isNumInst = true) (h2 : 0 ≤ v.toInt) (h3 : v.toInt < m) :
    clampSlot (max 1 m) v = v.toInt := by
  unfold clampSlot
  simp only [h1, if_true]
  have hm : max 1 m = m := max_eq_right (by omega)
  rw [hm]
  exact if_neg (by omega)

/-- Helper for C9: the per-link body on a positional link with resolvable
integer endpoints reduces to the `setInput` attempt at the clamped slot,
counted unless `setInput` raises. -/
theorem connectLink_arr_eval (byId : List (Int × NukeNode)) (lid sslot v : PyVal)
    (sId dId : Int) (srcN dstN : NukeNode) (m : Int)
    (hs : dictGetNode byId sId = some srcN)
    (hd : dictGetNode byId dId = some dstN)
    (hm : dstN.maxInputsResult = Except.ok m) :
    connectLink byId (LinkEntry.arr [lid, PyVal.int sId, sslot, PyVal.int dId, v]) =
      (if dstN.setInputRaises (clampSlot (max 1 m) v) then
        (0, [CEvent.setInputAttempt dId (clampSlot (max 1 m) v) sId])
      else
        (1, [CEvent.setInputAttempt dId (clampSlot (max 1 m) v) sId,
             CEvent.connected dId (clampSlot (max 1 m) v) sId])) := by
  have hpos : (0 : Int) < max 1 m := lt_of_lt_of_le one_pos (le_max_left 1 m)
  simp only [connectLink, linkFields, PyVal.isIntInst, Bool.and_self, if_true,
    PyVal.asKey, hs, hd, effMaxInputs, hm, hpos, if_pos]

/-- C9: for a link with resolvable endpoints whose destination accepts
`m` inputs, a destination slot value that is non-numeric, negative, or
at least `m` leads to a connection attempt at slot 0 (counted when
`setInput` does not raise), while a numeric in-range slot is used as
given. -/
theorem connect_slot_defaults_and_in_range (byId : List (Int × NukeNode))
    (lid sslot v : PyVal) (sId dId : Int) (srcN dstN : NukeNode) (m : Int)
    (hs : dictGetNode byId sId = some srcN)
    (hd : dictGetNode byId dId = some dstN)
    (hm : dstN.maxInputsResult = Except.ok m) :
    ((¬ v.isNumInst = true ∨ v.toInt < 0 ∨ m ≤ v.toInt) →
      CEvent.setInputAttempt dId 0 sId ∈
        (connectLink byId (LinkEntry.arr [lid, PyVal.int sId, sslot, PyVal.int dId, v])).2 ∧
      (dstN.setInputRaises 0 = false →
        (connectLink byId (LinkEntry.arr [lid, PyVal.int sId, sslot, PyVal.int dId, v])).1 = 1)) ∧
    ((v.isNumInst = true ∧ 0 ≤ v.toInt ∧ v.toInt < m) →
      CEvent.setInputAttempt dId v.toInt sId ∈
        (connectLink byId (LinkEntry.arr [lid, PyVal.int sId, sslot, PyVal.int dId, v])).2 ∧
      (dstN.setInputRaises v.toInt = false →
        (connectLink byId (LinkEntry.arr [lid, PyVal.int sId, sslot, PyVal.int dId, v])).1 = 1)) := by
  constructor
  · intro hbad
    have hc := clampSlot_bad m v hbad
    rw [connectLink_arr_eval byId lid sslot v sId dId srcN dstN m hs hd hm, hc]
    by_cases hr : dstN.setInputRaises 0 = true
    · simp [hr]
    · simp [hr]
  · rintro ⟨h1, h2, h3⟩
    have hc := clampSlot_good m v h1 h2 h3
    rw [connectLink_arr_eval byId lid sslot v sId dId srcN dstN m hs hd hm, hc]
    by_cases hr : dstN.setInputRaises v.toInt = true
    · simp [hr]
    · simp [hr]

/-- Witness for C9: on an import pass where node 2 accepts 3 inputs, the
out-of-range slot 9 connects at slot 0 and is counted, and the in-range
slot 1 connects at slot 1 and is counted. -/
theorem connect_slot_defaults_and_in_range_witness :
    (CEvent.setInputAttempt 2 0 1 ∈
       (connectLink byIdThree
         (LinkEntry.arr [PyVal.int 7, PyVal.int 1, PyVal.int 0, PyVal.int 2, PyVal.int 9])).2 ∧
     (connectLink byIdThree
       (LinkEntry.arr [PyVal.int 7, PyVal.int 1, PyVal.int 0, PyVal.int 2, PyVal.int 9])).1 = 1) ∧
    (CEvent.setInputAttempt 2 1 1 ∈
       (connectLink byIdThree
         (LinkEntry.arr [PyVal.int 7, PyVal.int 1, PyVal.int 0, PyVal.int 2, PyVal.int 1])).2 ∧
     (connectLink byIdThree
       (LinkEntry.arr [PyVal.int 7, PyVal.int 1, PyVal.int 0, PyVal.int 2, PyVal.int 1])).1 = 1) := by
  constructor
  · have h := (connect_slot_defaults_and_in_range byIdThree (PyVal.int 7) (PyVal.int 0)
      (PyVal.int 9) 1 2 (nodeNoRaise 3) (nodeNoRaise 3) 3 rfl rfl rfl).1
      (Or.inr (Or.inr (by decide)))
    exact ⟨h.1, h.2 rfl⟩
  · have h := (connect_slot_defaults_and_in_range byIdThree (PyVal.int 7) (PyVal.int 0)
      (PyVal.int 1) 1 2 (nodeNoRaise 3) (nodeNoRaise 3) 3 rfl rfl rfl).2
      ⟨rfl, by decide, by decide⟩
    exact ⟨h.1, h.2 rfl⟩

/-- C10: in the keyed (dict) form of a link, an id field holding the
integer 0 is falsy, so the `or` chain treats it as absent; when the
alternate keys are also absent the resolved id is `None`, which fails the
`isinstance(..., int)` check and the link is skipped — no connection is
made and nothing is counted, even when a node with id 0 exists in
`by_id`. -/
theorem connect_dict_zero_id_skipped (byId : List (Int × NukeNode))
    (kvs : List (String × PyVal))
    (h : (dictGet kvs ("from") = PyVal.int 0 ∧ dictGet kvs ("src") = PyVal.none ∧
          dictGet kvs ("output") = PyVal.none) ∨
         (dictGet kvs ("to") = PyVal.int 0 ∧ dictGet kvs ("dst") = PyVal.none ∧
          dictGet kvs ("input") = PyVal.none)) :
    connectLink byId (LinkEntry.dict kvs) = (0, []) := by
  have hlf : linkFields (LinkEntry.dict kvs) =
      some (pyOr (dictGet kvs ("from")) (pyOr (dictGet kvs ("src")) (dictGet kvs ("output"))),
            pyOr (dictGet kvs ("to")) (pyOr (dictGet kvs ("dst")) (dictGet kvs ("input"))),
            pyOr (dictGet kvs ("to_slot")) (pyOr (dictGet kvs ("dst_slot")) (PyVal.int 0))) := rfl
  unfold connectLink
  rw [hlf]
  rcases h with ⟨h1, h2, h3⟩ | ⟨h1, h2, h3⟩
  · rw [h1, h2, h3]
    simp [pyOr, PyVal.truthy, PyVal.isIntInst]
  · rw [h1, h2, h3]
    simp [pyOr, PyVal.truthy, PyVal.isIntInst]

/-- Witness for C10: the dict link `from: 0, to: 3` is skipped — count 0,
no events — although a node with id 0 was created in the same pass. -/
theorem connect_dict_zero_id_skipped_witness :
    connectLink byIdWithZero (LinkEntry.dict kvsFromZero) = (0, []) :=
  connect_dict_zero_id_skipped byIdWithZero kvsFromZero (Or.inl ⟨rfl, rfl, rfl⟩)

end CNBridge
